import Mathlib

/-!
Shallow embedding of the massive-text renderer core (Rust) in Lean 4,
with theorems checking the natural-language specification against it.

Source files embedded:
- `src/renderer/src/renderer.rs` (`Renderer`, `QuadIndexBuffer`)
- `src/renderer/src/quads/renderer.rs` (`QuadsRenderer`)
- `src/renderer/src/text_layer/atlas_sdf/renderer.rs` (`AtlasSdfRenderer`)
- `src/renderer/src/glyph/glyph_param.rs` (`GlyphRasterizationParam`)
- `src/shell/src/shell2.rs` (`Shell2::run` redraw handler)

Machine integers are modelled as `Nat` with explicit `% 2 ^ 16` where the
source truncates to `u16`; GPU buffers are modelled by the data written
into them; fallible code returns `Except`.
-/

namespace MassiveText

/-! ## QuadIndexBuffer (src/renderer/src/renderer.rs, lines 268-319)

The private index buffer of `Renderer`.  The wgpu buffer is modelled by the
list of `u16` index values written into it; a `u16` is a `Nat < 2 ^ 16` and
the `as u16` cast is truncation `% 65536`. -/

/-- `QuadIndexBuffer::QUAD_INDICES: &'static [u16] = &[0, 1, 2, 0, 2, 3]`. -/
def QUAD_INDICES : List Nat := [0, 1, 2, 0, 2, 3]

/-- `struct QuadIndexBuffer { buffer: wgpu::Buffer }`; the buffer is the
list of `u16` values it holds. -/
structure QuadIndexBuffer where
  buffer : List Nat
deriving DecidableEq, Repr

namespace QuadIndexBuffer

/-- `QuadIndexBuffer::new`: starts with an empty index buffer
(`const NO_INDICES: [u16; 0] = []`). -/
def new : QuadIndexBuffer := ⟨[]⟩

/-- `QuadIndexBuffer::quads`: `(self.buffer.size() as usize) /
size_of_val(Self::QUAD_INDICES)`.  The buffer's byte size is twice the
number of `u16` entries and `size_of_val` of the six-entry `u16` pattern
is 12 bytes. -/
def quads (b : QuadIndexBuffer) : Nat :=
  2 * b.buffer.length / 12

/-- One quad's six indices: `QUAD_INDICES.iter().map(|i| *i + (quad_index * 4) as u16)`.
The `as u16` cast truncates modulo `2 ^ 16`; the subsequent `u16` addition
cannot overflow because the pattern values are at most 3 and the truncated
offset is at most 65532. -/
def quadIndices (quad_index : Nat) : List Nat :=
  QUAD_INDICES.map (fun i => i + (quad_index * 4) % 65536)

/-- `QuadIndexBuffer::generate_array`: for each `quad_index` in `0..quads`,
extend the vector by the base pattern shifted by `(quad_index * 4) as u16`. -/
def generate_array (quads : Nat) : List Nat :=
  (List.range quads).flatMap quadIndices

/-- `QuadIndexBuffer::ensure_quads`: no-op when the requested quad count is
already covered, otherwise the whole buffer is regenerated at the new
size. -/
def ensure_quads (b : QuadIndexBuffer) (new_quad_count : Nat) : QuadIndexBuffer :=
  if new_quad_count ≤ b.quads then b
  else ⟨generate_array new_quad_count⟩

theorem length_quadIndices (i : Nat) : (quadIndices i).length = 6 := by
  simp [quadIndices, QUAD_INDICES]

theorem length_generate_array (n : Nat) : (generate_array n).length = 6 * n := by
  induction n with
  | zero => simp [generate_array]
  | succ m ih =>
    simp only [generate_array, List.range_succ, List.flatMap_append,
      List.flatMap_cons, List.flatMap_nil, List.length_append] at *
    simp [ih, length_quadIndices]
    omega

theorem quads_mk_generate (n : Nat) : (QuadIndexBuffer.mk (generate_array n)).quads = n := by
  simp [quads, length_generate_array]
  omega

/-- Capacity after `ensure_quads` is the max of the old capacity and the
request. -/
theorem quads_ensure (b : QuadIndexBuffer) (n : Nat) :
    (b.ensure_quads n).quads = max b.quads n := by
  unfold ensure_quads
  split
  · omega
  · rw [quads_mk_generate]; omega

/-- Element formula: entry `6 * i + k` of the generated array is
`QUAD_INDICES[k] + (4 * i) % 2 ^ 16`. -/
theorem generate_array_get (n i k : Nat) (hi : i < n) (hk : k < 6) :
    (generate_array n)[6 * i + k]? = some (QUAD_INDICES.getD k 0 + (i * 4) % 65536) := by
  induction n with
  | zero => omega
  | succ m ih =>
    have hsplit : generate_array (m + 1) = generate_array m ++ quadIndices m := by
      simp [generate_array, List.range_succ]
    rcases Nat.lt_succ_iff_lt_or_eq.mp hi with h | h
    · have hlt : 6 * i + k < (generate_array m).length := by
        rw [length_generate_array]; omega
      rw [hsplit, List.getElem?_append, if_pos hlt]
      exact ih h
    · subst h
      have hge : 6 * i + k = (generate_array i).length + k := by
        rw [length_generate_array]
      rw [hsplit, hge, List.getElem?_append, if_neg (by omega),
        Nat.add_sub_cancel_left]
      interval_cases k
      all_goals simp [quadIndices, QUAD_INDICES]

end QuadIndexBuffer

/-! ## Geometry and shape data model
(`massive_geometry`, `src/shapes/src/shapes.rs` and the `massive_shapes`
types used by `src/renderer/src/quads/renderer.rs`)

The numeric leaf types are `f64`-based in the source; the batching code
never computes with them, so they are carried as exact rationals. -/

/-- `massive_geometry::Matrix4`, carried as an opaque value with decidable
equality (its entries are never inspected by the batching code). -/
structure Matrix4 where
  entries : List Rat
deriving DecidableEq, Repr, Inhabited

/-- `Rc<Matrix4>`: a shared transform handle.  `ptr` models the allocation
identity observed by `Rc::as_ptr`; `value` is the pointed-to matrix.
Separately allocated but value-equal transforms have different `ptr` and
equal `value`. -/
structure RcMatrix4 where
  ptr : Nat
  value : Matrix4
deriving DecidableEq, Repr, Inhabited

/-- `massive_geometry::Point3` (f64 coordinates, carried as rationals). -/
structure Point3 where
  x : Rat
  y : Rat
  z : Rat
deriving DecidableEq, Repr, Inhabited

/-- `massive_geometry::Color` (f64 channels, carried as rationals). -/
structure Color where
  red : Rat
  green : Rat
  blue : Rat
  alpha : Rat
deriving DecidableEq, Repr, Inhabited

/-- `massive_shapes::Quad { vertices: [Point3; 4], color: Color }`. -/
structure Quad where
  v0 : Point3
  v1 : Point3
  v2 : Point3
  v3 : Point3
  color : Color
deriving DecidableEq, Repr, Inhabited

/-- `massive_shapes::QuadsShape`: an ordered sequence of quads plus a
shared transform handle `model_matrix: Rc<Matrix4>`. -/
structure QuadsShape where
  model_matrix : RcMatrix4
  quads : List Quad
deriving DecidableEq, Repr, Inhabited

/-- `massive_shapes::Shape`: the tagged drawable union consumed by
`QuadsRenderer::prepare` (only the `Quads` variant is kept by its
`filter_map`; the glyph-run variant is represented by its payload being
irrelevant here). -/
inductive Shape where
  | Quads (shape : QuadsShape)
  | GlyphRun (model_matrix : RcMatrix4)
deriving DecidableEq, Repr

/-- `pods::ColorVertex::new(position, color)`. -/
structure ColorVertex where
  position : Point3
  color : Color
deriving DecidableEq, Repr

/-! ## tools::QuadIndexBuffer

`src/renderer/src/quads/renderer.rs` and
`src/renderer/src/text_layer/atlas_sdf/renderer.rs` both own a
`tools::QuadIndexBuffer`, whose module is not among the given sources. -/

/-- Modelled from the spec: `tools::QuadIndexBuffer`
(`crate::tools` is not among the given source files; §4.4 of the spec:
a grow-only index buffer, `ensure_capacity(n)` is a no-op when the current
capacity covers `n` and otherwise regenerates the whole resource at the
new size, no shrink).  Only its quad capacity is observable here. -/
structure ToolsQuadIndexBuffer where
  num_quads : Nat
deriving DecidableEq, Repr

namespace ToolsQuadIndexBuffer

/-- Modelled from the spec: a fresh buffer indexes no quads. -/
def new : ToolsQuadIndexBuffer := ⟨0⟩

/-- Modelled from the spec: `ensure_can_index_num_quads` — no-op if covered,
otherwise regenerate at exactly the requested size. -/
def ensure_can_index_num_quads (b : ToolsQuadIndexBuffer) (n : Nat) : ToolsQuadIndexBuffer :=
  if n ≤ b.num_quads then b else ⟨n⟩

/-- `QuadIndexBuffer::QUAD_INDICES_COUNT` (six indices per quad). -/
def QUAD_INDICES_COUNT : Nat := 6

/-- `QuadIndexBuffer::INDICES_PER_QUAD` (six indices per quad). -/
def INDICES_PER_QUAD : Nat := 6

end ToolsQuadIndexBuffer

/-! ## QuadsRenderer (src/renderer/src/quads/renderer.rs) -/

/-- `struct QuadsLayer { model_matrix, vertex_buffer, quad_count }`; the
wgpu vertex buffer is modelled by the list of vertices written into it. -/
structure QuadsLayer where
  model_matrix : Matrix4
  vertex_buffer : List ColorVertex
  quad_count : Nat
deriving DecidableEq, Repr

/-- `struct QuadsRenderer` (the GPU pipeline object is omitted; the
index buffer and the per-frame layers are the observable state). -/
structure QuadsRenderer where
  index_buffer : ToolsQuadIndexBuffer
  layers : List QuadsLayer
deriving DecidableEq, Repr

namespace QuadsRenderer

/-- The four `ColorVertex::new` entries pushed for one `Quad` in
`QuadsRenderer::prepare_quads`. -/
def quadVertices (q : Quad) : List ColorVertex :=
  [⟨q.v0, q.color⟩, ⟨q.v1, q.color⟩, ⟨q.v2, q.color⟩, ⟨q.v3, q.color⟩]

/-- `QuadsRenderer::prepare_quads`: collect the four vertices of every quad
of every shape of the group; an empty vertex list yields no layer,
otherwise a layer with `quad_count = vertices.len() >> 2`. -/
def prepare_quads (model_matrix : Matrix4) (shapes : List QuadsShape) :
    Option QuadsLayer :=
  let vertices := shapes.flatMap (fun s => s.quads.flatMap quadVertices)
  if vertices.isEmpty then none
  else some ⟨model_matrix, vertices, vertices.length >>> 2⟩

/-- itertools' `into_group_map_by`: one group per distinct key, each group
holding the input elements with that key in input order.  (The source
iterates a `HashMap`, whose group order is unspecified; the group order
chosen here is immaterial to every property proved below.) -/
def group_map_by {α κ : Type} [DecidableEq κ] (key : α → κ) (l : List α) :
    List (κ × List α) :=
  (l.map key).dedup.map (fun k => (k, l.filter (fun x => key x = k)))

/-- The `Shape::Quads` payloads kept by the `filter_map` in
`QuadsRenderer::prepare`. -/
def quadsShapesOf (shapes : List Shape) : List QuadsShape :=
  shapes.filterMap (fun s => match s with
    | Shape.Quads q => some q
    | _ => none)

/-- The matrix the source reads from the group (`&shapes[0].model_matrix`;
groups produced by `into_group_map_by` are never empty). -/
def matrixOfGroup (group : List QuadsShape) : Matrix4 :=
  (group.headD default).model_matrix.value

/-- `QuadsRenderer::prepare`: group the quad shapes by the pointer identity
of their shared transform (`Rc::as_ptr(&shape.model_matrix)`), build one
layer per group that yields vertices, then size the index buffer to the
maximum quad count over the new layers.  Always returns `Ok`. -/
def prepare (r : QuadsRenderer) (shapes : List Shape) :
    Except String QuadsRenderer :=
  let grouped := group_map_by (fun s => s.model_matrix.ptr) (quadsShapesOf shapes)
  let layers := grouped.filterMap (fun g => prepare_quads (matrixOfGroup g.2) g.2)
  let max_quads := layers.foldl (fun m l => max m l.quad_count) 0
  Except.ok
    { index_buffer := r.index_buffer.ensure_can_index_num_quads max_quads,
      layers := layers }

/-- The number of indices covered by one layer's draw in
`QuadsRenderer::render`: `QUAD_INDICES_COUNT * quad_count`. -/
def drawIndexCount (l : QuadsLayer) : Nat :=
  ToolsQuadIndexBuffer.QUAD_INDICES_COUNT * l.quad_count

/-- The vertex list `prepare_quads` uploads for a group of shapes. -/
def verticesOf (shapes : List QuadsShape) : List ColorVertex :=
  shapes.flatMap (fun s => s.quads.flatMap quadVertices)

/-- Total quad count of a group of shapes. -/
def totalQuads (shapes : List QuadsShape) : Nat :=
  (shapes.map (fun s => s.quads.length)).sum

theorem verticesOf_eq (shapes : List QuadsShape) :
    shapes.flatMap (fun s => s.quads.flatMap quadVertices) = verticesOf shapes := rfl

theorem length_verticesOf (shapes : List QuadsShape) :
    (verticesOf shapes).length = 4 * totalQuads shapes := by
  induction shapes with
  | nil => simp [verticesOf, totalQuads]
  | cons s rest ih =>
    have hq : (s.quads.flatMap quadVertices).length = 4 * s.quads.length := by
      induction s.quads with
      | nil => simp
      | cons q qs ihq => simp [List.flatMap_cons, quadVertices] at *; omega
    simp only [verticesOf, totalQuads, List.flatMap_cons, List.map_cons,
      List.length_append, List.sum_cons] at *
    omega

theorem prepare_quads_eq (m : Matrix4) (shapes : List QuadsShape) :
    prepare_quads m shapes =
      if verticesOf shapes = [] then none
      else some ⟨m, verticesOf shapes, (verticesOf shapes).length >>> 2⟩ := by
  simp [prepare_quads, verticesOf, List.isEmpty_iff]

/-- `prepare_quads` yields a layer exactly when the group contributes at
least one quad. -/
theorem prepare_quads_isSome_iff (m : Matrix4) (shapes : List QuadsShape) :
    (prepare_quads m shapes).isSome ↔ totalQuads shapes ≠ 0 := by
  rw [prepare_quads_eq]
  have hlen := length_verticesOf shapes
  by_cases h : verticesOf shapes = []
  · simp [h]
    have : (verticesOf shapes).length = 0 := by simp [h]
    omega
  · simp [h]
    intro hc
    exact h (List.length_eq_zero.mp (by omega))

theorem prepare_quads_some (m : Matrix4) (shapes : List QuadsShape)
    (layer : QuadsLayer) (h : prepare_quads m shapes = some layer) :
    layer.vertex_buffer = verticesOf shapes ∧
      layer.quad_count = totalQuads shapes := by
  rw [prepare_quads_eq] at h
  by_cases hv : verticesOf shapes = []
  · simp [hv] at h
  · simp only [hv, if_false] at h
    cases h
    refine ⟨rfl, ?_⟩
    simp only [length_verticesOf, Nat.shiftRight_eq_div_pow]
    omega

/-! Properties of `group_map_by`. -/

theorem group_map_by_mem_shape {α κ : Type} [DecidableEq κ] (key : α → κ)
    (l : List α) {g : κ × List α} (hg : g ∈ group_map_by key l) :
    g.2 = l.filter (fun x => key x = g.1) ∧ g.1 ∈ l.map key := by
  simp only [group_map_by, List.mem_map] at hg
  obtain ⟨k, hk, rfl⟩ := hg
  exact ⟨rfl, List.mem_dedup.mp hk⟩

theorem key_eq_of_mem_group {α κ : Type} [DecidableEq κ] (key : α → κ)
    (l : List α) {g : κ × List α} (hg : g ∈ group_map_by key l) {x : α}
    (hx : x ∈ g.2) : key x = g.1 := by
  obtain ⟨hfilter, -⟩ := group_map_by_mem_shape key l hg
  rw [hfilter] at hx
  have := List.mem_filter.mp hx
  simpa using this.2

theorem mem_of_mem_group {α κ : Type} [DecidableEq κ] (key : α → κ)
    (l : List α) {g : κ × List α} (hg : g ∈ group_map_by key l) {x : α}
    (hx : x ∈ g.2) : x ∈ l := by
  obtain ⟨hfilter, -⟩ := group_map_by_mem_shape key l hg
  rw [hfilter] at hx
  exact (List.mem_filter.mp hx).1

theorem exists_group {α κ : Type} [DecidableEq κ] (key : α → κ)
    (l : List α) {x : α} (hx : x ∈ l) :
    (key x, l.filter (fun y => key y = key x)) ∈ group_map_by key l := by
  simp only [group_map_by, List.mem_map]
  exact ⟨key x, List.mem_dedup.mpr (List.mem_map_of_mem key hx), rfl⟩

theorem group_map_by_pair_ne {α κ : Type} [DecidableEq κ] (key : α → κ)
    (a b : α) (h : key a ≠ key b) :
    group_map_by key [a, b] = [(key a, [a]), (key b, [b])] := by
  unfold group_map_by
  have hd : ([key a, key b]).dedup = [key a, key b] :=
    List.dedup_eq_self.mpr (by simp [h])
  simp [hd, List.filter_cons, h, Ne.symm h]

theorem group_map_by_pair_eq {α κ : Type} [DecidableEq κ] (key : α → κ)
    (a b : α) (h : key a = key b) :
    group_map_by key [a, b] = [(key b, [a, b])] := by
  unfold group_map_by
  have hd : ([key a, key b]).dedup = [key b] := by
    rw [h, List.dedup_cons_of_mem (by simp), List.dedup_cons_of_not_mem (by simp),
      List.dedup_nil]
  simp [hd, List.filter_cons, h]

theorem totalQuads_ne_zero_of_mem {s : QuadsShape} {l : List QuadsShape}
    (hs : s ∈ l) (hq : s.quads ≠ []) : totalQuads l ≠ 0 := by
  intro hzero
  have hall := (List.sum_eq_zero_iff).mp hzero
  have : s.quads.length = 0 :=
    hall _ (List.mem_map_of_mem (fun t => t.quads.length) hs)
  exact hq (List.length_eq_zero.mp this)

/-- Two quad shapes land in the same batch of a frame: some group of the
partition contains both and yields a layer. -/
def inSameBatch (shapes : List Shape) (s1 s2 : QuadsShape) : Prop :=
  ∃ g ∈ group_map_by (fun s => s.model_matrix.ptr) (quadsShapesOf shapes),
    s1 ∈ g.2 ∧ s2 ∈ g.2 ∧ (prepare_quads (matrixOfGroup g.2) g.2).isSome

end QuadsRenderer

/-! ## AtlasSdfRenderer (src/renderer/src/text_layer/atlas_sdf/renderer.rs) -/

/-- An integer pixel-space point (corner of a `glyph_atlas::Rectangle`). -/
structure Point2I where
  x : Int
  y : Int
deriving DecidableEq, Repr, Inhabited

/-- `glyph_atlas::Rectangle`: the atlas-pixel-space rectangle of one glyph
(the `glyph_atlas` module is not among the given sources; the renderer
only reads `min`/`max` corners). -/
structure AtlasRectangle where
  min : Point2I
  max : Point2I
deriving DecidableEq, Repr, Inhabited

/-- `pods::TextureColorVertex::new(position, (u, v), color)`; the `as f32`
casts of the atlas-pixel coordinates are carried exactly. -/
structure TextureColorVertex where
  position : Point3
  uv : Rat × Rat
  color : Color
deriving DecidableEq, Repr

/-- Modelled from the spec: `GlyphAtlas` (`crate::glyph::glyph_atlas` is not
among the given source files; per §4.3 the batcher only observes the
atlas's current texture handle and dimensions). -/
structure GlyphAtlas where
  texture_id : Nat
  size : Nat × Nat
deriving DecidableEq, Repr

/-- `struct QuadInstance { atlas_rect, vertices: [Point3; 4], color }`. -/
structure QuadInstance where
  atlas_rect : AtlasRectangle
  v0 : Point3
  v1 : Point3
  v2 : Point3
  v3 : Point3
  color : Color
deriving DecidableEq, Repr, Inhabited

/-- The resource-binding group built per batch: references the atlas
texture view, the atlas size and the fixed sampler current at build
time. -/
structure FsBindGroup where
  texture_id : Nat
  texture_size : Nat × Nat
deriving DecidableEq, Repr

/-- `struct QuadBatch { model_matrix, fs_bind_group, vertex_buffer,
quad_count }`; the wgpu vertex buffer is modelled by the vertices written
into it. -/
structure QuadBatch where
  model_matrix : Matrix4
  fs_bind_group : FsBindGroup
  vertex_buffer : List TextureColorVertex
  quad_count : Nat
deriving DecidableEq, Repr

/-- `struct AtlasSdfRenderer` (pipeline and sampler objects omitted; the
atlas and the renderer-owned index buffer are the observable state). -/
structure AtlasSdfRenderer where
  atlas : GlyphAtlas
  index_buffer : ToolsQuadIndexBuffer
deriving DecidableEq, Repr

namespace AtlasSdfRenderer

/-- The four `TextureColorVertex::new` entries pushed for one
`QuadInstance` in `AtlasSdfRenderer::batch`: destination positions paired
with the atlas-pixel-space rectangle corners. -/
def instanceVertices (inst : QuadInstance) : List TextureColorVertex :=
  let r := inst.atlas_rect
  let ltx : Rat := r.min.x
  let lty : Rat := r.min.y
  let rbx : Rat := r.max.x
  let rby : Rat := r.max.y
  [⟨inst.v0, (ltx, lty), inst.color⟩,
   ⟨inst.v1, (ltx, rby), inst.color⟩,
   ⟨inst.v2, (rbx, rby), inst.color⟩,
   ⟨inst.v3, (rbx, lty), inst.color⟩]

/-- `AtlasSdfRenderer::batch`: convert the instances to one `QuadBatch`
(`quad_count = instances.len()`), build a binding group against the
current atlas texture, and grow this renderer's own index buffer to the
batch's quad count. -/
def batch (r : AtlasSdfRenderer) (model_matrix : Matrix4)
    (instances : List QuadInstance) : AtlasSdfRenderer × QuadBatch :=
  let vertices := instances.flatMap instanceVertices
  let bind_group : FsBindGroup := ⟨r.atlas.texture_id, r.atlas.size⟩
  let quad_count := instances.length
  ({ r with index_buffer := r.index_buffer.ensure_can_index_num_quads quad_count },
   { model_matrix := model_matrix,
     fs_bind_group := bind_group,
     vertex_buffer := vertices,
     quad_count := quad_count })

/-- The number of indices covered by one batch's draw in
`AtlasSdfRenderer::render`: `quad_count * INDICES_PER_QUAD`. -/
def drawIndexCount (b : QuadBatch) : Nat :=
  b.quad_count * ToolsQuadIndexBuffer.INDICES_PER_QUAD

theorem length_instanceVertices (inst : QuadInstance) :
    (instanceVertices inst).length = 4 := rfl

theorem length_flatMap_instanceVertices (instances : List QuadInstance) :
    (instances.flatMap instanceVertices).length = 4 * instances.length := by
  induction instances with
  | nil => simp
  | cons i rest ih =>
    simp only [List.flatMap_cons, List.length_append, List.length_cons,
      length_instanceVertices, ih]
    omega

end AtlasSdfRenderer

/-! ## Glyph rasterization parameters (src/renderer/src/glyph/glyph_param.rs) -/

/-- `swash::Weight` (an external font-axis weight; its `Default` is the
normal weight 400). -/
structure Weight where
  value : Nat
deriving DecidableEq, Repr

/-- `Default::default()` for `swash::Weight`. -/
def Weight.defaultWeight : Weight := ⟨400⟩

/-- `crate::primitives::Pipeline`: the closed pipeline-kind enumeration
(`primitives.rs` is not among the given sources; these are the variants
the given sources name). -/
inductive Pipeline where
  | PlanarGlyph
  | SdfGlyph
  | Quads
  | Texture
  | TextLayer
deriving DecidableEq, Repr

/-- Modelled from the spec: `GlyphClass` (its defining module is not among
the given source files; §3: a tagged variant {PixelPerfect, Zoomed,
Distorted} describing the glyph's rendering regime).  The source match
arms `Zoomed(_)`, `PixelPerfect { .. }` and `Distorted(_)` bind and ignore
their payloads, so the payloads are carried opaquely as `Unit`. -/
inductive GlyphClass where
  | PixelPerfect (payload : Unit)
  | Zoomed (payload : Unit)
  | Distorted (payload : Unit)
deriving DecidableEq, Repr

/-- `struct SwashRasterizationParam { hinted, weight }`. -/
structure SwashRasterizationParam where
  hinted : Bool
  weight : Weight
deriving DecidableEq, Repr

/-- `struct GlyphRasterizationParam { prefer_sdf, swash }`. -/
structure GlyphRasterizationParam where
  prefer_sdf : Bool
  swash : SwashRasterizationParam
deriving DecidableEq, Repr

namespace GlyphRasterizationParam

/-- `impl From<GlyphClass> for GlyphRasterizationParam`. -/
def fromClass : GlyphClass → GlyphRasterizationParam
  | GlyphClass.Zoomed _ | GlyphClass.PixelPerfect _ =>
      { swash := { hinted := true, weight := Weight.defaultWeight },
        prefer_sdf := false }
  | GlyphClass.Distorted _ =>
      { swash := { hinted := true, weight := Weight.defaultWeight },
        prefer_sdf := true }

/-- `GlyphRasterizationParam::pipeline`. -/
def pipeline (p : GlyphRasterizationParam) : Pipeline :=
  if p.prefer_sdf then Pipeline.SdfGlyph else Pipeline.PlanarGlyph

end GlyphRasterizationParam

/-! ## Renderer (src/renderer/src/renderer.rs) -/

/-- `wgpu::SurfaceError`: the closed error set of surface acquisition. -/
inductive SurfaceError where
  | Timeout
  | Outdated
  | Lost
  | OutOfMemory
deriving DecidableEq, Repr

/-- An acquired presentable surface texture (its identity is all the
renderer observes before creating a view of it). -/
structure SurfaceTexture where
  id : Nat
deriving DecidableEq, Repr

/-- `wgpu::SurfaceConfiguration`: the fields `resize_surface` touches plus
an untouched remainder (format, present mode, ...) carried opaquely. -/
structure SurfaceConfiguration where
  width : Nat
  height : Nat
  rest : Nat
deriving DecidableEq, Repr

/-- Modelled from the spec: `crate::primitives::Primitive`
(`primitives.rs` is not among the given source files;
`Renderer::render_and_present` observes a primitive only through
`Primitive::pipeline()` and `Primitive::quads()`, its quad count). -/
structure Primitive where
  pipeline : Pipeline
  quads : Nat
deriving DecidableEq, Repr

/-- What one call to `Renderer::render_and_present` did: its returned
`Result`, and whether the encoded commands were submitted and the surface
texture presented. -/
structure FrameResult where
  result : Except SurfaceError Unit
  submitted : Bool
  presented : Bool
deriving Repr

/-- `struct Renderer`: surface configuration, the renderer-private
`QuadIndexBuffer`, and a count of `wgpu::Surface::configure` calls
(modelling the GPU-side reconfiguration effect). -/
structure Renderer where
  surface_config : SurfaceConfiguration
  index_buffer : QuadIndexBuffer
  configure_calls : Nat
deriving DecidableEq, Repr

namespace Renderer

/-- `Renderer::surface_size`. -/
def surface_size (r : Renderer) : Nat × Nat :=
  (r.surface_config.width, r.surface_config.height)

/-- `Renderer::reconfigure_surface`: `surface.configure(&device, &config)`. -/
def reconfigure_surface (r : Renderer) : Renderer :=
  { r with configure_calls := r.configure_calls + 1 }

/-- `Renderer::resize_surface`: clamp the requested size to at least 1×1;
return early when the clamped size equals the current surface size,
otherwise store it and reconfigure the surface. -/
def resize_surface (r : Renderer) (new_size : Nat × Nat) : Renderer :=
  let new_surface_size := (max new_size.1 1, max new_size.2 1)
  if new_surface_size = r.surface_size then r
  else
    reconfigure_surface
      { r with
        surface_config :=
          { r.surface_config with
            width := new_surface_size.1, height := new_surface_size.2 } }

/-- `Renderer::render_and_present`: acquire the surface texture (the `?` on
`get_current_texture` propagates any `SurfaceError` before anything else
happens), then size the private index buffer to the maximum quad count
over the primitives (`max().unwrap_or_default()`), encode, submit and
present.  `acquire` is the surface's acquisition outcome for this frame. -/
def render_and_present (r : Renderer)
    (acquire : Except SurfaceError SurfaceTexture)
    (primitives : List Primitive) : Renderer × FrameResult :=
  match acquire with
  | Except.error e => (r, ⟨Except.error e, false, false⟩)
  | Except.ok _ =>
      let max_quads := ((primitives.map Primitive.quads).max?).getD 0
      ({ r with index_buffer := r.index_buffer.ensure_quads max_quads },
       ⟨Except.ok (), true, true⟩)

end Renderer

/-! ## Shell2 redraw handler (src/shell/src/shell2.rs, `RedrawRequested`) -/

/-- What the `RedrawRequested` arm of `Shell2::run` does with the result of
`render_and_present`. -/
inductive RedrawOutcome where
  /-- `Ok(_) => {}` — the frame was rendered, keep running. -/
  | rendered
  /-- `Err(SurfaceError::Lost) => self.reconfigure_surface()` — keep
  running, the next frame retries. -/
  | reconfiguredSurface
  /-- `Err(SurfaceError::OutOfMemory) => window_target.exit()`. -/
  | exited
  /-- `Err(e) => error!("{:?}", e)` — log only, skip this frame. -/
  | loggedError
deriving DecidableEq, Repr

namespace RedrawOutcome

/-- Whether the outcome terminates the run loop. -/
def exitsRunLoop : RedrawOutcome → Bool
  | exited => true
  | _ => false

end RedrawOutcome

namespace Shell2

/-- The `match self.renderer.render_and_present(..)` in `Shell2::run`. -/
def handle_render_result : Except SurfaceError Unit → RedrawOutcome
  | Except.ok _ => RedrawOutcome.rendered
  | Except.error SurfaceError.Lost => RedrawOutcome.reconfiguredSurface
  | Except.error SurfaceError.OutOfMemory => RedrawOutcome.exited
  | Except.error _ => RedrawOutcome.loggedError

end Shell2

/-! ## Shared helper lemmas -/

theorem ToolsQuadIndexBuffer.num_quads_ensure (b : ToolsQuadIndexBuffer) (n : Nat) :
    (b.ensure_can_index_num_quads n).num_quads = max b.num_quads n := by
  unfold ensure_can_index_num_quads
  by_cases h : n ≤ b.num_quads
  · simp only [if_pos h]; omega
  · simp only [if_neg h]; omega

theorem QuadIndexBuffer.quads_le_foldl (b : QuadIndexBuffer) (rs : List Nat) :
    b.quads ≤ (rs.foldl QuadIndexBuffer.ensure_quads b).quads := by
  induction rs generalizing b with
  | nil => exact Nat.le_refl _
  | cons r rs ih =>
    refine Nat.le_trans ?_ (ih (b.ensure_quads r))
    rw [QuadIndexBuffer.quads_ensure]
    omega

/-! ## Claim theorems -/

/-- C2: for every `n ≥ 0` and every index-buffer state, after
`ensure_quads(n)` the capacity is at least `n`; if the current capacity
already covers `n` the call is a no-op; capacity never shrinks across any
sequence of ensure calls, so the capacity is always at least the largest
quad count ever requested so far. -/
theorem c2_ensure_capacity_monotonic :
    (∀ (b : QuadIndexBuffer) (n : Nat), n ≤ (b.ensure_quads n).quads) ∧
    (∀ (b : QuadIndexBuffer) (n : Nat), n ≤ b.quads → b.ensure_quads n = b) ∧
    (∀ (b : QuadIndexBuffer) (n : Nat), b.quads ≤ (b.ensure_quads n).quads) ∧
    (∀ (b : QuadIndexBuffer) (requests : List Nat), ∀ n ∈ requests,
      n ≤ (requests.foldl QuadIndexBuffer.ensure_quads b).quads) := by
  refine ⟨?_, ?_, ?_, ?_⟩
  · intro b n; rw [QuadIndexBuffer.quads_ensure]; omega
  · intro b n h; simp [QuadIndexBuffer.ensure_quads, h]
  · intro b n; rw [QuadIndexBuffer.quads_ensure]; omega
  · intro b requests
    induction requests generalizing b with
    | nil => intro n h; cases h
    | cons r rs ih =>
      intro n h
      rcases List.mem_cons.mp h with rfl | h
      · refine Nat.le_trans ?_ (QuadIndexBuffer.quads_le_foldl (b.ensure_quads n) rs)
        rw [QuadIndexBuffer.quads_ensure]; omega
      · exact ih (b.ensure_quads r) n h

/-- Witness for C2 at concrete inputs. -/
theorem c2_witness :
    (QuadIndexBuffer.mk (QuadIndexBuffer.generate_array 5)).ensure_quads 3 =
      QuadIndexBuffer.mk (QuadIndexBuffer.generate_array 5) ∧
    2 ≤ (([5, 2, 1].foldl QuadIndexBuffer.ensure_quads QuadIndexBuffer.new)).quads :=
  ⟨c2_ensure_capacity_monotonic.2.1 (QuadIndexBuffer.mk (QuadIndexBuffer.generate_array 5))
      3 (by decide),
    c2_ensure_capacity_monotonic.2.2.2 QuadIndexBuffer.new [5, 2, 1] 2 (by decide)⟩

/-- C9: when `ensure_quads(n)` is called with `n` strictly greater than the
current capacity, the regenerated buffer's capacity is exactly `n` quads
(`6 * n` indices); after any call the capacity equals
`max(previous, n)`. -/
theorem c9_exact_capacity :
    (∀ (b : QuadIndexBuffer) (n : Nat), b.quads < n →
      (b.ensure_quads n).quads = n ∧ (b.ensure_quads n).buffer.length = 6 * n) ∧
    (∀ (b : QuadIndexBuffer) (n : Nat), (b.ensure_quads n).quads = max b.quads n) := by
  constructor
  · intro b n h
    have hne : ¬ n ≤ b.quads := by omega
    constructor
    · rw [QuadIndexBuffer.quads_ensure]; omega
    · simp [QuadIndexBuffer.ensure_quads, hne, QuadIndexBuffer.length_generate_array]
  · exact QuadIndexBuffer.quads_ensure

/-- Witness for C9 at a concrete input. -/
theorem c9_witness :
    QuadIndexBuffer.new.quads < 2 ∧
      ((QuadIndexBuffer.new.ensure_quads 2).quads = 2 ∧
        (QuadIndexBuffer.new.ensure_quads 2).buffer.length = 6 * 2) :=
  ⟨by decide, c9_exact_capacity.1 QuadIndexBuffer.new 2 (by decide)⟩

/-- C3 (amended): for every quad count `n` and quad index `i < n` with
`i < 16384`, the regenerated index array satisfies
`indices[6*i + k] = base_pattern[k] + 4*i` for all `k ∈ [0,6)`, where
`base_pattern = {0,1,2,0,2,3}`.  Beyond `i = 16383` the stored `u16`
values wrap modulo `2^16`. -/
theorem c3_index_pattern (n i k : Nat) (hi : i < n) (hk : k < 6)
    (hsmall : i < 16384) :
    (QuadIndexBuffer.generate_array n)[6 * i + k]? =
      some (QUAD_INDICES.getD k 0 + 4 * i) := by
  rw [QuadIndexBuffer.generate_array_get n i k hi hk]
  have : i * 4 % 65536 = 4 * i := by
    rw [Nat.mod_eq_of_lt (by omega)]; omega
  rw [this]

/-- Witness for C3 at a concrete input. -/
theorem c3_witness :
    1 < 3 ∧ 4 < 6 ∧ 1 < 16384 ∧
      (QuadIndexBuffer.generate_array 3)[6 * 1 + 4]? =
        some (QUAD_INDICES.getD 4 0 + 4 * 1) :=
  ⟨by decide, by decide, by decide,
    c3_index_pattern 3 1 4 (by decide) (by decide) (by decide)⟩

/-- C3 counterexample: at quad index `i = 16384` (quad count 16385) the
claimed identity `indices[6*i+k] = base_pattern[k] + 4*i` fails — the
`as u16` cast truncates the offset `4 * 16384 = 65536` to `0`. -/
theorem c3_counterexample :
    (QuadIndexBuffer.generate_array 16385)[6 * 16384 + 0]? ≠
      some (QUAD_INDICES.getD 0 0 + 4 * 16384) := by
  rw [QuadIndexBuffer.generate_array_get 16385 16384 0 (by omega) (by omega)]
  simp [QUAD_INDICES]

/-- C4: the rasterization selector is a total deterministic function of
`GlyphClass`: `PixelPerfect` and `Zoomed` map to `prefer_sdf = false`,
`hinted = true` and default weight; `Distorted` maps to
`prefer_sdf = true`, `hinted = true` and default weight; no other output
is possible. -/
theorem c4_rasterization_selector_total :
    (∀ p, GlyphRasterizationParam.fromClass (GlyphClass.PixelPerfect p) =
      ⟨false, ⟨true, Weight.defaultWeight⟩⟩) ∧
    (∀ p, GlyphRasterizationParam.fromClass (GlyphClass.Zoomed p) =
      ⟨false, ⟨true, Weight.defaultWeight⟩⟩) ∧
    (∀ p, GlyphRasterizationParam.fromClass (GlyphClass.Distorted p) =
      ⟨true, ⟨true, Weight.defaultWeight⟩⟩) ∧
    (∀ c, GlyphRasterizationParam.fromClass c =
        ⟨false, ⟨true, Weight.defaultWeight⟩⟩ ∨
      GlyphRasterizationParam.fromClass c =
        ⟨true, ⟨true, Weight.defaultWeight⟩⟩) := by
  refine ⟨fun p => rfl, fun p => rfl, fun p => rfl, fun c => ?_⟩
  cases c with
  | PixelPerfect p => exact Or.inl rfl
  | Zoomed p => exact Or.inl rfl
  | Distorted p => exact Or.inr rfl

/-- C6: surface-acquisition failures of `render_and_present` are handled by
classification: `Lost` reconfigures the surface (without exiting, so the
next frame retries), `Timeout` and `Outdated` are logged and the frame is
skipped, `OutOfMemory` terminates the run loop; in every failure case the
frame is abandoned before any command submission or present and the
renderer state is untouched. -/
theorem c6_surface_error_policy :
    Shell2.handle_render_result (Except.error SurfaceError.Lost) =
      RedrawOutcome.reconfiguredSurface ∧
    Shell2.handle_render_result (Except.error SurfaceError.Timeout) =
      RedrawOutcome.loggedError ∧
    Shell2.handle_render_result (Except.error SurfaceError.Outdated) =
      RedrawOutcome.loggedError ∧
    Shell2.handle_render_result (Except.error SurfaceError.OutOfMemory) =
      RedrawOutcome.exited ∧
    (∀ e : SurfaceError,
      (Shell2.handle_render_result (Except.error e)).exitsRunLoop =
        decide (e = SurfaceError.OutOfMemory)) ∧
    (∀ (r : Renderer) (e : SurfaceError) (ps : List Primitive),
      Renderer.render_and_present r (Except.error e) ps =
        (r, ⟨Except.error e, false, false⟩)) := by
  refine ⟨rfl, rfl, rfl, rfl, fun e => ?_, fun r e ps => rfl⟩
  cases e <;> rfl

/-- C10: for every requested size `(w, h)`, `resize_surface` sets the
surface size to `(max w 1, max h 1)`; when that clamped size equals the
current surface size the call leaves the renderer (in particular its
surface configuration) entirely unchanged and does not reconfigure the
surface. -/
theorem c10_resize_surface_clamped :
    (∀ (r : Renderer) (w h : Nat),
      (r.resize_surface (w, h)).surface_size = (max w 1, max h 1)) ∧
    (∀ (r : Renderer) (w h : Nat),
      (max w 1, max h 1) = r.surface_size → r.resize_surface (w, h) = r) := by
  constructor
  · intro r w h
    simp only [Renderer.resize_surface]
    split
    · next hcond => exact hcond.symm
    · rfl
  · intro r w h hc
    simp only [Renderer.resize_surface]
    split
    · rfl
    · next hne => exact absurd hc hne

/-- C1 (amended): quad batching groups by transform-handle identity —
provided every shape carries at least one quad (a group contributing zero
vertices is skipped and its shapes land in no batch): two shapes land in
the same batch iff they reference the exact same shared transform
instance; two shapes with separately allocated but value-equal transforms
yield two distinct batches; two shapes sharing one transform handle yield
exactly one batch whose vertex count is 4 times the sum of their quad
counts. -/
theorem c1_identity_batching :
    (∀ shapes : List Shape,
      (∀ s ∈ QuadsRenderer.quadsShapesOf shapes, s.quads ≠ []) →
      ∀ s1 ∈ QuadsRenderer.quadsShapesOf shapes,
        ∀ s2 ∈ QuadsRenderer.quadsShapesOf shapes,
          (QuadsRenderer.inSameBatch shapes s1 s2 ↔
            s1.model_matrix.ptr = s2.model_matrix.ptr)) ∧
    (∀ (r : QuadsRenderer) (s1 s2 : QuadsShape),
      s1.quads ≠ [] → s2.quads ≠ [] →
      s1.model_matrix.ptr ≠ s2.model_matrix.ptr →
      s1.model_matrix.value = s2.model_matrix.value →
      Except.map (fun r' => r'.layers.length)
        (QuadsRenderer.prepare r [Shape.Quads s1, Shape.Quads s2]) =
        Except.ok 2) ∧
    (∀ (r : QuadsRenderer) (s1 s2 : QuadsShape),
      s1.quads ≠ [] →
      s1.model_matrix = s2.model_matrix →
      Except.map
        (fun r' => (r'.layers.length,
          r'.layers.map (fun l => l.vertex_buffer.length)))
        (QuadsRenderer.prepare r [Shape.Quads s1, Shape.Quads s2]) =
        Except.ok (1, [4 * (s1.quads.length + s2.quads.length)])) := by
  refine ⟨?_, ?_, ?_⟩
  · intro shapes hne s1 hs1 s2 hs2
    constructor
    · rintro ⟨g, hg, hg1, hg2, -⟩
      have k1 := QuadsRenderer.key_eq_of_mem_group _ _ hg hg1
      have k2 := QuadsRenderer.key_eq_of_mem_group _ _ hg hg2
      rw [k1, k2]
    · intro hptr
      refine ⟨(s1.model_matrix.ptr,
          (QuadsRenderer.quadsShapesOf shapes).filter
            (fun y => y.model_matrix.ptr = s1.model_matrix.ptr)),
        QuadsRenderer.exists_group _ _ hs1, ?_, ?_, ?_⟩
      · exact List.mem_filter.mpr ⟨hs1, by simp⟩
      · exact List.mem_filter.mpr ⟨hs2, by simp [hptr]⟩
      · rw [QuadsRenderer.prepare_quads_isSome_iff]
        refine QuadsRenderer.totalQuads_ne_zero_of_mem (s := s1) ?_ (hne s1 hs1)
        exact List.mem_filter.mpr ⟨hs1, by simp⟩
  · intro r s1 s2 h1 h2 hptr hval
    have hgroups := QuadsRenderer.group_map_by_pair_ne
      (fun s : QuadsShape => s.model_matrix.ptr) s1 s2 hptr
    obtain ⟨l1, e1⟩ := Option.isSome_iff_exists.mp
      ((QuadsRenderer.prepare_quads_isSome_iff
        (QuadsRenderer.matrixOfGroup [s1]) [s1]).mpr
        (QuadsRenderer.totalQuads_ne_zero_of_mem (List.mem_singleton_self s1) h1))
    obtain ⟨l2, e2⟩ := Option.isSome_iff_exists.mp
      ((QuadsRenderer.prepare_quads_isSome_iff
        (QuadsRenderer.matrixOfGroup [s2]) [s2]).mpr
        (QuadsRenderer.totalQuads_ne_zero_of_mem (List.mem_singleton_self s2) h2))
    simp only [QuadsRenderer.prepare, QuadsRenderer.quadsShapesOf,
      List.filterMap_cons, List.filterMap_nil]
    rw [hgroups]
    simp [e1, e2, Except.map]
  · intro r s1 s2 h1 hmm
    have hkey : s1.model_matrix.ptr = s2.model_matrix.ptr := by rw [hmm]
    have hgroups := QuadsRenderer.group_map_by_pair_eq
      (fun s : QuadsShape => s.model_matrix.ptr) s1 s2 hkey
    obtain ⟨l1, e1⟩ := Option.isSome_iff_exists.mp
      ((QuadsRenderer.prepare_quads_isSome_iff
        (QuadsRenderer.matrixOfGroup [s1, s2]) [s1, s2]).mpr
        (QuadsRenderer.totalQuads_ne_zero_of_mem (List.mem_cons_self s1 [s2]) h1))
    obtain ⟨hv, -⟩ := QuadsRenderer.prepare_quads_some _ _ _ e1
    simp only [QuadsRenderer.prepare, QuadsRenderer.quadsShapesOf,
      List.filterMap_cons, List.filterMap_nil]
    rw [hgroups]
    simp [e1, hv, Except.map, QuadsRenderer.length_verticesOf,
      QuadsRenderer.totalQuads]

/-- C1 counterexample: with two quad-less shapes sharing one transform
handle, `prepare` yields zero batches, not the claimed exactly one. -/
theorem c1_counterexample :
    Except.map (fun r => r.layers.length)
        (QuadsRenderer.prepare ⟨⟨0⟩, []⟩
          [Shape.Quads ⟨⟨1, ⟨[]⟩⟩, []⟩, Shape.Quads ⟨⟨1, ⟨[]⟩⟩, []⟩]) =
      Except.ok 0 ∧
    (0 : Nat) ≠ 1 :=
  ⟨rfl, by decide⟩

/-- Witness for C1 at concrete inputs. -/
theorem c1_witness :
    (QuadsRenderer.inSameBatch
        [Shape.Quads ⟨⟨1, ⟨[]⟩⟩, [default]⟩, Shape.Quads ⟨⟨2, ⟨[]⟩⟩, [default]⟩]
        ⟨⟨1, ⟨[]⟩⟩, [default]⟩ ⟨⟨2, ⟨[]⟩⟩, [default]⟩ ↔ (1 : Nat) = 2) ∧
    Except.map (fun r' => r'.layers.length)
        (QuadsRenderer.prepare ⟨⟨0⟩, []⟩
          [Shape.Quads ⟨⟨1, ⟨[]⟩⟩, [default]⟩,
           Shape.Quads ⟨⟨2, ⟨[]⟩⟩, [default]⟩]) = Except.ok 2 ∧
    Except.map
        (fun r' => (r'.layers.length,
          r'.layers.map (fun l => l.vertex_buffer.length)))
        (QuadsRenderer.prepare ⟨⟨0⟩, []⟩
          [Shape.Quads ⟨⟨1, ⟨[]⟩⟩, [default]⟩,
           Shape.Quads ⟨⟨1, ⟨[]⟩⟩, [default, default]⟩]) =
      Except.ok (1, [4 * (1 + 2)]) := by
  refine ⟨?_, ?_, ?_⟩
  · exact c1_identity_batching.1
      [Shape.Quads ⟨⟨1, ⟨[]⟩⟩, [default]⟩, Shape.Quads ⟨⟨2, ⟨[]⟩⟩, [default]⟩]
      (by intro s hs; fin_cases hs <;> simp)
      ⟨⟨1, ⟨[]⟩⟩, [default]⟩ (by simp [QuadsRenderer.quadsShapesOf])
      ⟨⟨2, ⟨[]⟩⟩, [default]⟩ (by simp [QuadsRenderer.quadsShapesOf])
  · exact c1_identity_batching.2.1 ⟨⟨0⟩, []⟩
      ⟨⟨1, ⟨[]⟩⟩, [default]⟩ ⟨⟨2, ⟨[]⟩⟩, [default]⟩
      (by simp) (by simp) (by decide) rfl
  · exact c1_identity_batching.2.2 ⟨⟨0⟩, []⟩
      ⟨⟨1, ⟨[]⟩⟩, [default]⟩ ⟨⟨1, ⟨[]⟩⟩, [default, default]⟩
      (by simp) rfl

/-- C8: every batch built by either batcher satisfies
`vertices_in_batch = 4 * quad_count`: every layer the quads batcher builds
and every batch the glyph batcher builds carries exactly four vertices per
recorded quad. -/
theorem c8_vertices_are_4_times_quads :
    (∀ (m : Matrix4) (group : List QuadsShape) (layer : QuadsLayer),
      QuadsRenderer.prepare_quads m group = some layer →
      layer.vertex_buffer.length = 4 * layer.quad_count) ∧
    (∀ (r : AtlasSdfRenderer) (m : Matrix4) (instances : List QuadInstance),
      (AtlasSdfRenderer.batch r m instances).2.vertex_buffer.length =
        4 * (AtlasSdfRenderer.batch r m instances).2.quad_count) := by
  constructor
  · intro m group layer h
    obtain ⟨hv, hq⟩ := QuadsRenderer.prepare_quads_some m group layer h
    rw [hv, hq, QuadsRenderer.length_verticesOf]
  · intro r m instances
    simp only [AtlasSdfRenderer.batch]
    exact AtlasSdfRenderer.length_flatMap_instanceVertices instances

/-- Witness for C8 at a concrete input. -/
theorem c8_witness :
    QuadsRenderer.prepare_quads ⟨[]⟩ [⟨⟨1, ⟨[]⟩⟩, [default]⟩] =
      some ⟨⟨[]⟩, QuadsRenderer.quadVertices default, 1⟩ ∧
    (QuadsRenderer.quadVertices default).length = 4 * 1 :=
  ⟨rfl, c8_vertices_are_4_times_quads.1 ⟨[]⟩ [⟨⟨1, ⟨[]⟩⟩, [default]⟩]
    ⟨⟨[]⟩, QuadsRenderer.quadVertices default, 1⟩ rfl⟩

/-- C7 (amended): an empty primitive list or a group of shapes contributing
zero vertices is not an error: quad `prepare` always returns `Ok`,
produces zero batches for an empty input, and skips any transform group
whose shapes contain no quads; a zero-instance glyph `batch` call is not
an error either — it yields one batch with `quad_count = 0` whose indexed
draw covers zero indices (a no-op draw for that pipeline kind). -/
theorem c7_empty_inputs_not_error :
    (∀ (r : QuadsRenderer) (shapes : List Shape),
      ∃ r', QuadsRenderer.prepare r shapes = Except.ok r') ∧
    (∀ r : QuadsRenderer,
      QuadsRenderer.prepare r [] = Except.ok ⟨r.index_buffer, []⟩) ∧
    (∀ (m : Matrix4) (group : List QuadsShape),
      (∀ s ∈ group, s.quads = []) →
      QuadsRenderer.prepare_quads m group = none) ∧
    (∀ (r : AtlasSdfRenderer) (m : Matrix4),
      (AtlasSdfRenderer.batch r m []).2.quad_count = 0 ∧
      AtlasSdfRenderer.drawIndexCount (AtlasSdfRenderer.batch r m []).2 = 0) := by
  refine ⟨fun r shapes => ⟨_, rfl⟩, fun r => ?_, ?_, fun r m => ⟨rfl, rfl⟩⟩
  · simp [QuadsRenderer.prepare, QuadsRenderer.quadsShapesOf,
      QuadsRenderer.group_map_by, ToolsQuadIndexBuffer.ensure_can_index_num_quads]
  intro m group hall
  have hzero : QuadsRenderer.totalQuads group = 0 := by
    apply List.sum_eq_zero_iff.mpr
    intro x hx
    obtain ⟨s, hs, rfl⟩ := List.mem_map.mp hx
    simp [hall s hs]
  have := QuadsRenderer.prepare_quads_isSome_iff m group
  rw [Option.isSome_iff_exists] at this
  by_contra hne
  obtain ⟨layer, hlayer⟩ := Option.ne_none_iff_exists'.mp hne
  exact (this.mp ⟨layer, hlayer⟩) hzero

/-- C7 counterexample: a zero-instance glyph batch does not yield zero
batches — `AtlasSdfRenderer::batch` on an empty instance list returns
exactly one `QuadBatch` (with `quad_count = 0`). -/
theorem c7_counterexample :
    [(AtlasSdfRenderer.batch ⟨⟨0, (0, 0)⟩, ⟨0⟩⟩ ⟨[]⟩ []).2].length = 1 ∧
    (AtlasSdfRenderer.batch ⟨⟨0, (0, 0)⟩, ⟨0⟩⟩ ⟨[]⟩ []).2.quad_count = 0 ∧
    (1 : Nat) ≠ 0 :=
  ⟨rfl, rfl, by decide⟩

/-- Witness for C7 at concrete inputs. -/
theorem c7_witness :
    QuadsRenderer.prepare ⟨⟨3⟩, []⟩ [] = Except.ok ⟨⟨3⟩, []⟩ ∧
    QuadsRenderer.prepare_quads ⟨[]⟩ [⟨⟨1, ⟨[]⟩⟩, []⟩] = none :=
  ⟨c7_empty_inputs_not_error.2.1 ⟨⟨3⟩, []⟩,
    c7_empty_inputs_not_error.2.2.1 ⟨[]⟩ [⟨⟨1, ⟨[]⟩⟩, []⟩]
      (by intro s hs; simp at hs; simp [hs])⟩

/-- C5 (amended): there is no frame-global shared index resource — each
quad-consuming renderer owns and sizes its own: `QuadsRenderer::prepare`
grows its own buffer to the maximum quad count over its own layers,
`AtlasSdfRenderer::batch` grows its own buffer to each batch's quad
count, and `Renderer::render_and_present` grows its own private buffer to
the maximum quad count over its primitives. -/
theorem c5_per_renderer_index_buffers :
    (∀ (r : QuadsRenderer) (shapes : List Shape),
      Except.map (fun r' => r'.index_buffer.num_quads)
          (QuadsRenderer.prepare r shapes) =
        Except.map
          (fun r' => max r.index_buffer.num_quads
            (r'.layers.foldl (fun m l => max m l.quad_count) 0))
          (QuadsRenderer.prepare r shapes)) ∧
    (∀ (r : AtlasSdfRenderer) (m : Matrix4) (instances : List QuadInstance),
      (AtlasSdfRenderer.batch r m instances).1.index_buffer.num_quads =
        max r.index_buffer.num_quads instances.length) ∧
    (∀ (r : Renderer) (tex : SurfaceTexture) (ps : List Primitive),
      (Renderer.render_and_present r (Except.ok tex) ps).1.index_buffer.quads =
        max r.index_buffer.quads (((ps.map Primitive.quads).max?).getD 0)) := by
  refine ⟨?_, ?_, ?_⟩
  · intro r shapes
    simp only [QuadsRenderer.prepare, Except.map]
    rw [ToolsQuadIndexBuffer.num_quads_ensure]
  · intro r m instances
    simp only [AtlasSdfRenderer.batch]
    exact ToolsQuadIndexBuffer.num_quads_ensure r.index_buffer instances.length
  · intro r tex ps
    simp only [Renderer.render_and_present]
    exact QuadIndexBuffer.quads_ensure r.index_buffer _

/-- C5 counterexample: in a frame where the quads batcher needs 5 quads and
the glyph batcher needs 3, the two renderers end up with index resources
of different capacities (5 and 3) — there is no single shared resource
sized once to the frame-wide maximum. -/
theorem c5_counterexample :
    Except.map (fun r => r.index_buffer.num_quads)
        (QuadsRenderer.prepare ⟨⟨0⟩, []⟩
          [Shape.Quads ⟨⟨1, ⟨[]⟩⟩, List.replicate 5 default⟩]) =
      Except.ok 5 ∧
    (AtlasSdfRenderer.batch ⟨⟨0, (0, 0)⟩, ⟨0⟩⟩ ⟨[]⟩
        (List.replicate 3 default)).1.index_buffer.num_quads = 3 ∧
    (5 : Nat) ≠ 3 :=
  ⟨rfl, rfl, by decide⟩

/-- Witness for C10 at a concrete input. -/
theorem c10_witness :
    ((max 640 1, max 480 1) =
        (Renderer.mk ⟨640, 480, 0⟩ QuadIndexBuffer.new 0).surface_size) ∧
      (Renderer.mk ⟨640, 480, 0⟩ QuadIndexBuffer.new 0).resize_surface (640, 480) =
        Renderer.mk ⟨640, 480, 0⟩ QuadIndexBuffer.new 0 :=
  ⟨by decide,
    c10_resize_surface_clamped.2 (Renderer.mk ⟨640, 480, 0⟩ QuadIndexBuffer.new 0)
      640 480 (by decide)⟩

end MassiveText
